import Mathlib

/-!
Shallow embedding of the analyzer-registry and module-loading subsystem of
src/plugin/src/plugin.cc (the Zeek Spicy plugin).

The host engine (Zeek) is external: its analyzer manager and file manager are
modelled as explicit state values, and host-side calls made by the plugin are
either recorded as an ordered event list (for the registration phase, where the
claims are about which calls happen and in which order) or applied to an
explicit enabled-state map (for the toggle entry points, where the claims are
about the resulting enabled states).

C++ `std::vector<T>::resize(n)` is modelled by `vresize`, which makes the
length exactly `n`, truncating when `n` is below the current length and
default-padding when it is above — exactly the C++ semantics.

C++ `std::vector` subscripting without a bounds check is modelled by
`List.getElem?` wrapped so that an out-of-bounds access yields `none`,
standing for "no defined result" (undefined behaviour in the C++ source).
-/

namespace SpicyPluginModel

/-- hilti::rt::Protocol, restricted to the constructors the plugin inspects.
`Undef` is the default-constructed value. -/
inductive Protocol where
  | TCP
  | UDP
  | ICMP
  | Undef
deriving DecidableEq, Repr

/-- spicy::rt::Parser as far as the plugin reads it: the lookup in
InitPostScript compares only the `name` field. -/
structure Parser where
  name : String
deriving DecidableEq, Repr

/-- ProtocolAnalyzerInfo (zeek-spicy/plugin.h): one slot of
`_protocol_analyzers_by_type`. `replaces = none` models an invalid
(default-constructed) Tag; `type = 0` is the unset sentinel; the resolved
`parser_orig`/`parser_resp` pointers are `none` until phase 2. -/
structure ProtocolAnalyzerInfo where
  name_analyzer : String
  name_parser_orig : String
  name_parser_resp : String
  name_replaces : String
  protocol : Protocol
  ports : List Nat
  replaces : Option Nat
  type : Nat
  parser_orig : Option Parser
  parser_resp : Option Parser
deriving DecidableEq, Repr

/-- The default-constructed ProtocolAnalyzerInfo used for slots created by a
`resize`: empty strings, invalid tag, sentinel type 0, null pointers. -/
def ProtocolAnalyzerInfo.default : ProtocolAnalyzerInfo :=
  { name_analyzer := ""
    name_parser_orig := ""
    name_parser_resp := ""
    name_replaces := ""
    protocol := Protocol.Undef
    ports := []
    replaces := none
    type := 0
    parser_orig := none
    parser_resp := none }

/-- FileAnalyzerInfo: one slot of `_file_analyzers_by_type`. -/
structure FileAnalyzerInfo where
  name_analyzer : String
  name_parser_decl : String
  name_replaces : String
  mime_types : List String
  replaces : Option Nat
  type : Nat
  parser : Option Parser
deriving DecidableEq, Repr

/-- Default-constructed FileAnalyzerInfo. -/
def FileAnalyzerInfo.default : FileAnalyzerInfo :=
  { name_analyzer := ""
    name_parser_decl := ""
    name_replaces := ""
    mime_types := []
    replaces := none
    type := 0
    parser := none }

/-- PacketAnalyzerInfo: one slot of `_packet_analyzers_by_type`. -/
structure PacketAnalyzerInfo where
  name_analyzer : String
  name_parser_decl : String
  type : Nat
  parser : Option Parser
deriving DecidableEq, Repr

/-- Default-constructed PacketAnalyzerInfo. -/
def PacketAnalyzerInfo.default : PacketAnalyzerInfo :=
  { name_analyzer := ""
    name_parser_decl := ""
    type := 0
    parser := none }

/-- Host-side calls issued during phase-1 registration, recorded in program
order. `errorReport` is zeek-spicy's reporter::error — logged, non-fatal,
the registration entry point then returns normally. -/
inductive HostEvent where
  | disableAnalyzer (tag : Nat)
  | setFileEnabled (tag : Nat) (b : Bool)
  | addComponent (name : String)
  | errorReport (msg : String)
  | debugLog (msg : String)
deriving DecidableEq, Repr

/-- The plugin's mutable registration state: the three descriptor tables and
the ordered log of host-side calls made so far. -/
structure PluginState where
  protocol_analyzers_by_type : List ProtocolAnalyzerInfo
  file_analyzers_by_type : List FileAnalyzerInfo
  packet_analyzers_by_type : List PacketAnalyzerInfo
  events : List HostEvent
deriving DecidableEq, Repr

/-- Initial plugin state: all tables empty, no host calls made. -/
def PluginState.init : PluginState :=
  { protocol_analyzers_by_type := []
    file_analyzers_by_type := []
    packet_analyzers_by_type := []
    events := [] }

/-- C++ std::vector::resize(n): the result has length exactly `n`; when `n`
is below the current length the tail is discarded, when it is above, new
default-valued slots are appended. -/
def vresize (l : List α) (n : Nat) (d : α) : List α :=
  l.take n ++ List.replicate (n - l.length) d

/-- The factory chosen by the `switch (proto)` in registerProtocolAnalyzer
(plugin.cc:106-110): TCP and UDP have instantiation callbacks, everything
else falls into the `default:` error branch, modelled by `none`. -/
def factoryFor : Protocol → Option Unit
  | Protocol.TCP => some ()
  | Protocol.UDP => some ()
  | _ => none

/-- The replacement reference recorded by the `replaces` block of
registerProtocolAnalyzer (plugin.cc:94-102) and registerFileAnalyzer
(plugin.cc:146-154): only a non-empty `replaces` name that the host lookup
resolves produces a reference. -/
def replacesTagFor (lookup : String → Option Nat) (replaces : String) : Option Nat :=
  if replaces = "" then none else lookup replaces

/-- The host-side calls made by the `replaces` block of
registerProtocolAnalyzer: a resolved name disables the existing analyzer
(analyzer_mgr->DisableAnalyzer), an unresolvable one only logs. -/
def replacesEventsProtocol (lookup : String → Option Nat) (replaces : String) : List HostEvent :=
  if replaces = "" then []
  else
    match lookup replaces with
    | some tag => [HostEvent.disableAnalyzer tag]
    | none => [HostEvent.debugLog "replaces target does not exist"]

/-- The host-side calls made by the `replaces` block of registerFileAnalyzer:
a resolved name disables the existing component (component->SetEnabled(false)),
an unresolvable one only logs. -/
def replacesEventsFile (lookup : String → Option Nat) (replaces : String) : List HostEvent :=
  if replaces = "" then []
  else
    match lookup replaces with
    | some tag => [HostEvent.setFileEnabled tag false]
    | none => [HostEvent.debugLog "replaces target does not exist"]

/-- Plugin::registerProtocolAnalyzer (plugin.cc:79-127). The host is external:
`getAnalyzerTag` models analyzer_mgr->GetAnalyzerTag (lookup of the `replaces`
name), and `assignedType` is the numeric id the host's `c->Tag().Type()`
reports for the newly created component. Faithful to source order: the
`replaces` block runs first, then the factory switch (unsupported protocol:
reporter::error and return, nothing stored), then AddComponent, then
`_protocol_analyzers_by_type.resize(type + 1)` and the store at index
`type`. -/
def registerProtocolAnalyzer (st : PluginState)
    (getAnalyzerTag : String → Option Nat) (assignedType : Nat)
    (name : String) (proto : Protocol) (ports : List Nat)
    (parser_orig parser_resp replaces : String) : PluginState :=
  let ev1 := replacesEventsProtocol getAnalyzerTag replaces
  match factoryFor proto with
  | none =>
      { st with events := st.events ++ ev1 ++ [HostEvent.errorReport "unsupported protocol in analyzer"] }
  | some _ =>
      let info : ProtocolAnalyzerInfo :=
        { name_analyzer := name
          name_parser_orig := parser_orig
          name_parser_resp := parser_resp
          name_replaces := replaces
          protocol := proto
          ports := ports
          replaces := replacesTagFor getAnalyzerTag replaces
          type := assignedType
          parser_orig := none
          parser_resp := none }
      { st with
        events := st.events ++ ev1 ++ [HostEvent.addComponent name]
        protocol_analyzers_by_type :=
          (vresize st.protocol_analyzers_by_type (assignedType + 1) ProtocolAnalyzerInfo.default).set
            assignedType info }

/-- Plugin::registerFileAnalyzer (plugin.cc:129-173), in the
ZEEK_VERSION_NUMBER >= 40100 configuration. `lookupFileByName` models
file_mgr->Lookup(replaces) returning the existing component's tag;
disabling it is component->SetEnabled(false). -/
def registerFileAnalyzer (st : PluginState)
    (lookupFileByName : String → Option Nat) (assignedType : Nat)
    (name : String) (mime_types : List String)
    (parser_decl replaces : String) : PluginState :=
  let info : FileAnalyzerInfo :=
    { name_analyzer := name
      name_parser_decl := parser_decl
      name_replaces := replaces
      mime_types := mime_types
      replaces := replacesTagFor lookupFileByName replaces
      type := assignedType
      parser := none }
  { st with
    events := st.events ++ replacesEventsFile lookupFileByName replaces ++ [HostEvent.addComponent name]
    file_analyzers_by_type :=
      (vresize st.file_analyzers_by_type (assignedType + 1) FileAnalyzerInfo.default).set
        assignedType info }

/-- Plugin::registerPacketAnalyzer (plugin.cc:176-203): no replaces handling,
no factory switch; create the component, then resize and store. -/
def registerPacketAnalyzer (st : PluginState)
    (assignedType : Nat) (name : String) (parser_decl : String) : PluginState :=
  let info2 : PacketAnalyzerInfo :=
    { name_analyzer := name
      name_parser_decl := parser_decl
      type := assignedType
      parser := none }
  { st with
    events := st.events ++ [HostEvent.addComponent name]
    packet_analyzers_by_type :=
      (vresize st.packet_analyzers_by_type (assignedType + 1) PacketAnalyzerInfo.default).set
        assignedType info2 }

/-- The host's protocol-analyzer manager, reduced to its per-tag enabled
state. EnableAnalyzer/DisableAnalyzer update one tag's flag. -/
structure AnalyzerMgr where
  enabled : Nat → Bool

/-- analyzer_mgr->EnableAnalyzer(tag). -/
def AnalyzerMgr.enableAnalyzer (m : AnalyzerMgr) (t : Nat) : AnalyzerMgr :=
  ⟨fun x => if x = t then true else m.enabled x⟩

/-- analyzer_mgr->DisableAnalyzer(tag). -/
def AnalyzerMgr.disableAnalyzer (m : AnalyzerMgr) (t : Nat) : AnalyzerMgr :=
  ⟨fun x => if x = t then false else m.enabled x⟩

/-- Plugin::toggleAnalyzer for protocol analyzers (plugin.cc:293-325).
Returns the boolean result together with the updated host state.
`tbl[tag]? = none` is exactly the `type >= size` early return. -/
def toggleProtocolAnalyzer (tbl : List ProtocolAnalyzerInfo) (mgr : AnalyzerMgr)
    (tag : Nat) (enable : Bool) : Bool × AnalyzerMgr :=
  match tbl[tag]? with
  | none => (false, mgr)
  | some analyzer =>
    if analyzer.type = 0 then (false, mgr)
    else if enable then
      let m1 := mgr.enableAnalyzer tag
      let m2 := match analyzer.replaces with
        | some r => m1.disableAnalyzer r
        | none => m1
      (true, m2)
    else
      let m1 := mgr.disableAnalyzer tag
      let m2 := match analyzer.replaces with
        | some r => m1.enableAnalyzer r
        | none => m1
      (true, m2)

/-- The host's file-analysis manager: which component tags exist
(`present`, file_mgr->Lookup by tag), and each component's enabled flag. -/
structure FileMgr where
  present : Nat → Bool
  enabled : Nat → Bool

/-- component->SetEnabled(b) for the component with the given tag. -/
def FileMgr.setEnabled (fm : FileMgr) (t : Nat) (b : Bool) : FileMgr :=
  { fm with enabled := fun x => if x = t then b else fm.enabled x }

/-- Plugin::toggleAnalyzer for file analyzers (plugin.cc:327-375), in the
ZEEK_VERSION_NUMBER >= 40100 configuration. A failed file_mgr->Lookup of the
Spicy component itself (reporter::internalError, then `return false`) is the
`fm.present tag = false` branch; a failed lookup of the replacement target
just drops the replacement toggling, as in the source. -/
def toggleFileAnalyzer (tbl : List FileAnalyzerInfo) (fm : FileMgr)
    (tag : Nat) (enable : Bool) : Bool × FileMgr :=
  match tbl[tag]? with
  | none => (false, fm)
  | some analyzer =>
    if analyzer.type = 0 then (false, fm)
    else
      let componentReplaces : Option Nat :=
        match analyzer.replaces with
        | some r => if fm.present r then some r else none
        | none => none
      if fm.present tag then
        if enable then
          let f1 := fm.setEnabled tag true
          let f2 := match componentReplaces with
            | some r => f1.setEnabled r false
            | none => f1
          (true, f2)
        else
          let f1 := fm.setEnabled tag false
          let f2 := match componentReplaces with
            | some r => f1.setEnabled r true
            | none => f1
          (true, f2)
      else (false, fm)

/-- Plugin::toggleAnalyzer for packet analyzers (plugin.cc:378-392), exactly
as written in the source: after bounds-checking `tag` against
`_packet_analyzers_by_type.size()`, the source reads
`_protocol_analyzers_by_type[type]` (line 384). The result is `none` when
that unchecked protocol-table subscript is out of bounds (undefined behaviour
in C++); otherwise `some (returned, loggedNotSupported)` where the second
component records whether the "not supported by Zeek" message was logged.
The `enable` argument is ignored by the source. -/
def togglePacketAnalyzer (packetTbl : List PacketAnalyzerInfo)
    (protoTbl : List ProtocolAnalyzerInfo) (tag : Nat) (enable : Bool) :
    Option (Bool × Bool) :=
  if packetTbl.length ≤ tag then some (false, false)
  else
    match protoTbl[tag]? with
    | none => none
    | some analyzer =>
      if analyzer.type = 0 then some (false, false)
      else some (false, true)

/-- State of the module registry (`_libraries`) together with the ordered
list of successful hilti::rt::Library::open calls. -/
structure LoaderState where
  libraries : List String
  opened : List String
deriving DecidableEq, Repr

/-- Plugin::loadModule (plugin.cc:617-636). `canonical` models
hilti::rt::filesystem::canonical (failure throws an EnvironmentError, caught
and turned into hilti::rt::fatalError — the `Except.error` outcome);
`openOk` models whether Library::open succeeds for a canonical path (failure
is likewise fatal). A canonical path already present in `_libraries` is a
logged no-op: the insert does not take place and the module is not opened. -/
def loadModule (canonical : String → Option String) (openOk : String → Bool)
    (st : LoaderState) (path : String) : Except String LoaderState :=
  match canonical path with
  | none => Except.error "fatal: canonicalization failed"
  | some cp =>
    if cp ∈ st.libraries then Except.ok st
    else if openOk cp then
      Except.ok { libraries := cp :: st.libraries, opened := st.opened ++ [cp] }
    else Except.error "fatal: could not open library path"

/-- The find_parser lambda in Plugin::InitPostScript (plugin.cc:514-526):
an empty declared name resolves to a null pointer; otherwise the first
runtime parser with exactly the declared name is returned, and if none
matches, reporter::internalError is fatal (`Except.error`). -/
def findParser (parsers : List Parser) (analyzer decl : String) :
    Except String (Option Parser) :=
  if decl = "" then Except.ok none
  else
    match parsers.find? (fun p => p.name = decl) with
    | some p => Except.ok (some p)
    | none => Except.error ("Unknown Spicy parser " ++ decl ++ " requested by analyzer " ++ analyzer)

/-- The phase-2 resolution step for one protocol-table slot
(plugin.cc:528-536): slots with the unset sentinel `type = 0` are skipped;
for set slots both declared parser names are resolved through find_parser. -/
def resolveProtocolInfo (parsers : List Parser) (p : ProtocolAnalyzerInfo) :
    Except String ProtocolAnalyzerInfo :=
  if p.type = 0 then Except.ok p
  else do
    let po ← findParser parsers p.name_analyzer p.name_parser_orig
    let pr ← findParser parsers p.name_analyzer p.name_parser_resp
    Except.ok { p with parser_orig := po, parser_resp := pr }

/-- The phase-2 resolution loop of Plugin::InitPostScript over
`_protocol_analyzers_by_type`, processing slots in table order and failing
fatally at the first unresolvable non-empty parser name. -/
def initPostScriptProtocol (parsers : List Parser) :
    List ProtocolAnalyzerInfo → Except String (List ProtocolAnalyzerInfo)
  | [] => Except.ok []
  | p :: rest => do
    let q ← resolveProtocolInfo parsers p
    let qs ← initPostScriptProtocol parsers rest
    Except.ok (q :: qs)

/-- Splitting accumulator for hilti::rt::split over the separator ":". -/
def splitOnColonAux : List Char → List Char → List (List Char)
  | [], acc => [acc.reverse]
  | c :: rest, acc =>
    if c = ':' then acc.reverse :: splitOnColonAux rest []
    else splitOnColonAux rest (c :: acc)

/-- hilti::rt::split(s, ":"): the colon-separated pieces of `s`, in order. -/
def splitColon (s : String) : List String :=
  (splitOnColonAux s.toList []).map List.asString

/-- hilti::rt::trim: strip leading and trailing whitespace. -/
def trimString (s : String) : String :=
  (((s.toList.dropWhile Char.isWhitespace).reverse.dropWhile Char.isWhitespace).reverse).asString

/-- The directory iteration of Plugin::searchModules (plugin.cc:658-676)
restricted to which directories get searched: split the colon-separated
list, trim each entry, skip empty entries and entries that are not existing
directories (`isDir` models hilti::rt::filesystem::is_directory). -/
def searchedDirs (isDir : String → Bool) (paths : String) : List String :=
  ((splitColon paths).map trimString).filter (fun d => d ≠ "" && isDir d)

/-- Plugin::autoDiscoverModules (plugin.cc:683-691): the list of directories
searched, in order. `env` is getenv("SPICY_MODULE_PATH") — `none` when
unset; a set, non-empty value overrides everything, otherwise the configured
PluginModuleDirectory and the host's zeek_plugin_path are searched one after
the other. -/
def autoDiscoverModules (isDir : String → Bool) (env : Option String)
    (pluginModuleDirectory zeekPluginPath : String) : List String :=
  match env with
  | some s =>
    if s = "" then
      searchedDirs isDir pluginModuleDirectory ++ searchedDirs isDir zeekPluginPath
    else searchedDirs isDir s
  | none =>
    searchedDirs isDir pluginModuleDirectory ++ searchedDirs isDir zeekPluginPath

/-- Plugin::parserForProtocolAnalyzer (plugin.cc:254-260). The source
indexes `_protocol_analyzers_by_type[tag.Type()]` without any bounds or
sentinel check; the outer Option models definedness of that subscript:
`none` stands for an out-of-bounds access (undefined behaviour in C++),
`some r` for the defined in-bounds result `r`. -/
def parserForProtocolAnalyzer (tbl : List ProtocolAnalyzerInfo)
    (tagType : Nat) (is_orig : Bool) : Option (Option Parser) :=
  match tbl[tagType]? with
  | none => none
  | some p => some (if is_orig then p.parser_orig else p.parser_resp)

/-- Plugin::parserForFileAnalyzer (plugin.cc:262-264), with the same
unchecked-subscript convention as parserForProtocolAnalyzer. -/
def parserForFileAnalyzer (tbl : List FileAnalyzerInfo) (tagType : Nat) :
    Option (Option Parser) :=
  match tbl[tagType]? with
  | none => none
  | some p => some p.parser

theorem vresize_length (l : List α) (n : Nat) (d : α) : (vresize l n d).length = n := by
  simp [vresize, List.length_take]
  omega

theorem vresize_getElem?_lt (l : List α) (n : Nat) (d : α) (j : Nat)
    (hj : j < l.length) (hjn : j < n) : (vresize l n d)[j]? = l[j]? := by
  have hq : j < (l.take n).length := by
    simp [List.length_take]
    omega
  rw [vresize, List.getElem?_append_left hq, List.getElem?_take_of_lt hjn]

theorem vresize_getElem?_pad (l : List α) (n : Nat) (d : α) (j : Nat)
    (hj : l.length ≤ j) (hjn : j < n) : (vresize l n d)[j]? = some d := by
  have hq : (l.take n).length ≤ j := by
    simp [List.length_take]
    omega
  rw [vresize, List.getElem?_append_right hq, List.getElem?_replicate]
  have hc : j - (l.take n).length < n - l.length := by
    simp [List.length_take]
    omega
  rw [if_pos hc]

theorem store_length (tbl : List α) (t : Nat) (d i : α) :
    ((vresize tbl (t + 1) d).set t i).length = t + 1 := by
  rw [List.length_set, vresize_length]

theorem store_getElem?_self (tbl : List α) (t : Nat) (d i : α) :
    ((vresize tbl (t + 1) d).set t i)[t]? = some i := by
  have h : t < (vresize tbl (t + 1) d).length := by
    rw [vresize_length]
    omega
  exact List.getElem?_set_self h

theorem store_getElem?_lt (tbl : List α) (t : Nat) (d i : α) (j : Nat)
    (hj : j < tbl.length) (hjt : j < t) :
    ((vresize tbl (t + 1) d).set t i)[j]? = tbl[j]? := by
  rw [List.getElem?_set_ne (by omega : t ≠ j)]
  exact vresize_getElem?_lt tbl (t + 1) d j hj (by omega)

theorem store_getElem?_pad (tbl : List α) (t : Nat) (d i : α) (j : Nat)
    (hj : tbl.length ≤ j) (hjt : j < t) :
    ((vresize tbl (t + 1) d).set t i)[j]? = some d := by
  rw [List.getElem?_set_ne (by omega : t ≠ j)]
  exact vresize_getElem?_pad tbl (t + 1) d j hj (by omega)

/-- C1 (amended): for each of the three phase-1 registrations, PROVIDED the
host-assigned id `t` is at least the current table length (ids assigned in
increasing order, as the host does), the descriptor table afterwards has
length exactly `t+1`, the descriptor (carrying type id `t` and the analyzer
name) sits at index `t`, every previously stored descriptor is unchanged, and
every newly created intermediate slot holds the default-initialized
descriptor, whose sentinel `type` field is zero. For the protocol kind the
store only happens when the transport protocol has a factory. Without the
proviso the claim fails, because C++ vector resize truncates (see the
counterexample). -/
theorem c1_registration_table_invariant (st : PluginState)
    (lookupA lookupF : String → Option Nat) (t : Nat)
    (nameP nameF nameK : String) (proto : Protocol) (ports : List Nat)
    (po pr repP : String) (mts : List String) (pdF pdK repF : String) :
    ProtocolAnalyzerInfo.default.type = 0 ∧
    FileAnalyzerInfo.default.type = 0 ∧
    PacketAnalyzerInfo.default.type = 0 ∧
    (st.protocol_analyzers_by_type.length ≤ t → (factoryFor proto).isSome →
      (registerProtocolAnalyzer st lookupA t nameP proto ports po pr repP).protocol_analyzers_by_type.length = t + 1 ∧
      ((registerProtocolAnalyzer st lookupA t nameP proto ports po pr repP).protocol_analyzers_by_type[t]?).map
          (fun i => (i.type, i.name_analyzer)) = some (t, nameP) ∧
      (∀ j, j < st.protocol_analyzers_by_type.length →
        (registerProtocolAnalyzer st lookupA t nameP proto ports po pr repP).protocol_analyzers_by_type[j]?
          = st.protocol_analyzers_by_type[j]?) ∧
      (∀ j, st.protocol_analyzers_by_type.length ≤ j → j < t →
        (registerProtocolAnalyzer st lookupA t nameP proto ports po pr repP).protocol_analyzers_by_type[j]?
          = some ProtocolAnalyzerInfo.default)) ∧
    (st.file_analyzers_by_type.length ≤ t →
      (registerFileAnalyzer st lookupF t nameF mts pdF repF).file_analyzers_by_type.length = t + 1 ∧
      ((registerFileAnalyzer st lookupF t nameF mts pdF repF).file_analyzers_by_type[t]?).map
          (fun i => (i.type, i.name_analyzer)) = some (t, nameF) ∧
      (∀ j, j < st.file_analyzers_by_type.length →
        (registerFileAnalyzer st lookupF t nameF mts pdF repF).file_analyzers_by_type[j]?
          = st.file_analyzers_by_type[j]?) ∧
      (∀ j, st.file_analyzers_by_type.length ≤ j → j < t →
        (registerFileAnalyzer st lookupF t nameF mts pdF repF).file_analyzers_by_type[j]?
          = some FileAnalyzerInfo.default)) ∧
    (st.packet_analyzers_by_type.length ≤ t →
      (registerPacketAnalyzer st t nameK pdK).packet_analyzers_by_type.length = t + 1 ∧
      ((registerPacketAnalyzer st t nameK pdK).packet_analyzers_by_type[t]?).map
          (fun i => (i.type, i.name_analyzer)) = some (t, nameK) ∧
      (∀ j, j < st.packet_analyzers_by_type.length →
        (registerPacketAnalyzer st t nameK pdK).packet_analyzers_by_type[j]?
          = st.packet_analyzers_by_type[j]?) ∧
      (∀ j, st.packet_analyzers_by_type.length ≤ j → j < t →
        (registerPacketAnalyzer st t nameK pdK).packet_analyzers_by_type[j]?
          = some PacketAnalyzerInfo.default)) := by
  refine ⟨rfl, rfl, rfl, ?_, ?_, ?_⟩
  · intro hlen hfac
    cases hpf : factoryFor proto with
    | none =>
      rw [hpf] at hfac
      exact absurd hfac (by simp)
    | some u =>
      simp only [registerProtocolAnalyzer, hpf]
      refine ⟨store_length _ _ _ _, ?_, ?_, ?_⟩
      · rw [store_getElem?_self]
        rfl
      · intro j hj
        exact store_getElem?_lt _ _ _ _ j hj (by omega)
      · intro j hj hjt
        exact store_getElem?_pad _ _ _ _ j hj hjt
  · intro hlen
    simp only [registerFileAnalyzer]
    refine ⟨store_length _ _ _ _, ?_, ?_, ?_⟩
    · rw [store_getElem?_self]
      rfl
    · intro j hj
      exact store_getElem?_lt _ _ _ _ j hj (by omega)
    · intro j hj hjt
      exact store_getElem?_pad _ _ _ _ j hj hjt
  · intro hlen
    simp only [registerPacketAnalyzer]
    refine ⟨store_length _ _ _ _, ?_, ?_, ?_⟩
    · rw [store_getElem?_self]
      rfl
    · intro j hj
      exact store_getElem?_lt _ _ _ _ j hj (by omega)
    · intro j hj hjt
      exact store_getElem?_pad _ _ _ _ j hj hjt

/-- C1 witness: the amended invariant applied to concrete registrations on
the initial state, with host-assigned ids 2 (protocol), 1 (file) and
1 (packet). -/
theorem c1_registration_table_invariant_witness :
    (registerProtocolAnalyzer PluginState.init (fun _ => none) 2 "A" Protocol.TCP [] "" "" "").protocol_analyzers_by_type.length = 3 ∧
    ((registerProtocolAnalyzer PluginState.init (fun _ => none) 2 "A" Protocol.TCP [] "" "" "").protocol_analyzers_by_type[0]?
        = some ProtocolAnalyzerInfo.default) ∧
    (registerFileAnalyzer PluginState.init (fun _ => none) 1 "B" [] "" "").file_analyzers_by_type.length = 2 ∧
    (registerPacketAnalyzer PluginState.init 1 "C" "").packet_analyzers_by_type.length = 2 := by
  have h := c1_registration_table_invariant PluginState.init (fun _ => none) (fun _ => none) 2 "A" "B" "C"
    Protocol.TCP [] "" "" "" [] "" "" ""
  obtain ⟨-, -, -, hp, -, -⟩ := h
  have h2 := c1_registration_table_invariant PluginState.init (fun _ => none) (fun _ => none) 1 "A" "B" "C"
    Protocol.TCP [] "" "" "" [] "" "" ""
  obtain ⟨-, -, -, -, hf, hk⟩ := h2
  have hp2 := hp (by decide) (by decide)
  have hf2 := hf (by decide)
  have hk2 := hk (by decide)
  exact ⟨hp2.1, hp2.2.2.2 0 (by decide) (by decide), hf2.1, hk2.1⟩

/-- First concrete registration for the C1 counterexample: host assigns
type id 1. -/
def c1exSt1 : PluginState :=
  registerProtocolAnalyzer PluginState.init (fun _ => none) 1 "A" Protocol.TCP [] "" "" ""

/-- Second concrete registration for the C1 counterexample: host assigns
type id 0, below the table's current length 2. -/
def c1exSt2 : PluginState :=
  registerProtocolAnalyzer c1exSt1 (fun _ => none) 0 "B" Protocol.TCP [] "" "" ""

/-- C1 counterexample: the claim quantifies over every order of host-assigned
ids, but `resize(type + 1)` is C++ vector resize, which truncates. After a
registration with id 1 the table has length 2 and holds descriptor "A" at
index 1; a subsequent registration with id 0 shrinks the table to length 1,
destroying the previously stored descriptor at index 1 — so the table size is
not at least 1+1 and the descriptor previously stored at the other index 1 is
not unchanged. -/
theorem c1_resize_truncates_counterexample :
    c1exSt1.protocol_analyzers_by_type.length = 2 ∧
    (c1exSt1.protocol_analyzers_by_type[1]?).map (fun i => i.name_analyzer) = some "A" ∧
    c1exSt2.protocol_analyzers_by_type.length = 1 ∧
    c1exSt2.protocol_analyzers_by_type[1]? = none := by
  refine ⟨rfl, rfl, rfl, rfl⟩

/-- C3: for both the protocol and the file toggle entry points, a tag whose
numeric id is at or beyond the table size (`tbl[tag]? = none`) or whose slot
carries the unset sentinel `type = 0` makes toggleAnalyzer return `false`
with the host state untouched; the model functions are total, so no abort or
fatal error occurs on this path. The single hypothesis covers both cases:
any slot found at the index is the sentinel. -/
theorem c3_toggle_unknown_tag_safe
    (ptbl : List ProtocolAnalyzerInfo) (ftbl : List FileAnalyzerInfo)
    (mgr : AnalyzerMgr) (fm : FileMgr) (tag : Nat) (enable : Bool)
    (hp : ∀ i, ptbl[tag]? = some i → i.type = 0)
    (hf : ∀ i, ftbl[tag]? = some i → i.type = 0) :
    toggleProtocolAnalyzer ptbl mgr tag enable = (false, mgr) ∧
    toggleFileAnalyzer ftbl fm tag enable = (false, fm) := by
  constructor
  · unfold toggleProtocolAnalyzer
    cases h : ptbl[tag]? with
    | none => rfl
    | some i => simp [hp i h]
  · unfold toggleFileAnalyzer
    cases h : ftbl[tag]? with
    | none => rfl
    | some i => simp [hf i h]

/-- C3 witness: an out-of-range protocol tag (empty table), and a file tag
hitting a default-initialized sentinel slot. -/
theorem c3_toggle_unknown_tag_safe_witness :
    toggleProtocolAnalyzer [] ⟨fun _ => true⟩ 0 true = (false, ⟨fun _ => true⟩) ∧
    toggleFileAnalyzer [FileAnalyzerInfo.default] ⟨fun _ => true, fun _ => true⟩ 0 true
      = (false, ⟨fun _ => true, fun _ => true⟩) :=
  c3_toggle_unknown_tag_safe [] [FileAnalyzerInfo.default]
    ⟨fun _ => true⟩ ⟨fun _ => true, fun _ => true⟩ 0 true
    (by intro i h; simp at h)
    (by intro i h; simp at h; rw [← h]; rfl)

/-- C4 (amended): a toggle on a descriptor with a replacement reference sets
the Spicy analyzer's enabled state to `enable` and the replaced analyzer's
enabled state to the opposite, for both the protocol and the file entry
points. Consequently toggle(true) followed by toggle(false) leaves the
replaced analyzer ENABLED — which equals its state before the pair exactly
when it was enabled then; the unconditional round-trip of the claim fails for
an initially disabled replaced analyzer (see the counterexample), so the
round-trip conclusion here carries that extra hypothesis. -/
theorem c4_replacement_inversion (ptbl : List ProtocolAnalyzerInfo)
    (ftbl : List FileAnalyzerInfo) (mgr : AnalyzerMgr) (fm : FileMgr)
    (tag r : Nat) (enable : Bool) (pa : ProtocolAnalyzerInfo) (fa : FileAnalyzerInfo)
    (hne : r ≠ tag)
    (hpa : ptbl[tag]? = some pa) (hpt : pa.type ≠ 0) (hpr : pa.replaces = some r)
    (hfa : ftbl[tag]? = some fa) (hft : fa.type ≠ 0) (hfr : fa.replaces = some r)
    (hpresent : fm.present tag = true) (hpresentR : fm.present r = true) :
    ((toggleProtocolAnalyzer ptbl mgr tag enable).2.enabled tag = enable ∧
     (toggleProtocolAnalyzer ptbl mgr tag enable).2.enabled r = !enable) ∧
    (mgr.enabled r = true →
      (toggleProtocolAnalyzer ptbl (toggleProtocolAnalyzer ptbl mgr tag true).2 tag false).2.enabled r
        = mgr.enabled r) ∧
    ((toggleFileAnalyzer ftbl fm tag enable).2.enabled tag = enable ∧
     (toggleFileAnalyzer ftbl fm tag enable).2.enabled r = !enable) ∧
    (fm.enabled r = true →
      (toggleFileAnalyzer ftbl (toggleFileAnalyzer ftbl fm tag true).2 tag false).2.enabled r
        = fm.enabled r) := by
  have hproto : ∀ (m : AnalyzerMgr) (e : Bool),
      (toggleProtocolAnalyzer ptbl m tag e).2.enabled tag = e ∧
      (toggleProtocolAnalyzer ptbl m tag e).2.enabled r = !e := by
    intro m e
    unfold toggleProtocolAnalyzer
    rw [hpa]
    cases e <;>
      simp [hpt, hpr, AnalyzerMgr.enableAnalyzer, AnalyzerMgr.disableAnalyzer, hne, Ne.symm hne]
  have hfile : ∀ (f : FileMgr) (e : Bool), f.present tag = true → f.present r = true →
      (toggleFileAnalyzer ftbl f tag e).2.enabled tag = e ∧
      (toggleFileAnalyzer ftbl f tag e).2.enabled r = !e := by
    intro f e h1 h2
    unfold toggleFileAnalyzer
    rw [hfa]
    cases e <;>
      simp [hft, hfr, h1, h2, FileMgr.setEnabled, hne, Ne.symm hne]
  have hfilePresent : ∀ (f : FileMgr) (e : Bool),
      (toggleFileAnalyzer ftbl f tag e).2.present = f.present := by
    intro f e
    unfold toggleFileAnalyzer
    rw [hfa]
    cases e <;>
      simp [hft, hfr, hpresent, FileMgr.setEnabled] <;>
      split <;> simp [FileMgr.setEnabled] <;> split <;> simp [FileMgr.setEnabled]
  refine ⟨hproto mgr enable, ?_, hfile fm enable hpresent hpresentR, ?_⟩
  · intro hinit
    rw [(hproto (toggleProtocolAnalyzer ptbl mgr tag true).2 false).2, hinit]
    rfl
  · intro hinit
    have hpres2 : (toggleFileAnalyzer ftbl fm tag true).2.present tag = true := by
      rw [hfilePresent fm true]
      exact hpresent
    have hpres2R : (toggleFileAnalyzer ftbl fm tag true).2.present r = true := by
      rw [hfilePresent fm true]
      exact hpresentR
    rw [(hfile (toggleFileAnalyzer ftbl fm tag true).2 false hpres2 hpres2R).2, hinit]
    rfl

/-- Concrete table for the C4 instances: one protocol descriptor at index 0,
set (type 1), replacing host analyzer 5. -/
def c4exPtbl : List ProtocolAnalyzerInfo :=
  [{ ProtocolAnalyzerInfo.default with type := 1, replaces := some 5 }]

/-- Concrete file table for the C4 instances: one set descriptor at index 0,
replacing file component 5. -/
def c4exFtbl : List FileAnalyzerInfo :=
  [{ FileAnalyzerInfo.default with type := 1, replaces := some 5 }]

/-- C4 witness: the amended statement applied at tag 0, replacement tag 5,
with both analyzers initially enabled on both hosts. -/
theorem c4_replacement_inversion_witness :
    ((toggleProtocolAnalyzer c4exPtbl ⟨fun _ => true⟩ 0 true).2.enabled 0 = true ∧
     (toggleProtocolAnalyzer c4exPtbl ⟨fun _ => true⟩ 0 true).2.enabled 5 = false) ∧
    (toggleProtocolAnalyzer c4exPtbl (toggleProtocolAnalyzer c4exPtbl ⟨fun _ => true⟩ 0 true).2 0 false).2.enabled 5
      = (true : Bool) ∧
    ((toggleFileAnalyzer c4exFtbl ⟨fun _ => true, fun _ => true⟩ 0 true).2.enabled 0 = true ∧
     (toggleFileAnalyzer c4exFtbl ⟨fun _ => true, fun _ => true⟩ 0 true).2.enabled 5 = false) ∧
    (toggleFileAnalyzer c4exFtbl (toggleFileAnalyzer c4exFtbl ⟨fun _ => true, fun _ => true⟩ 0 true).2 0 false).2.enabled 5
      = (true : Bool) := by
  have h := c4_replacement_inversion c4exPtbl c4exFtbl ⟨fun _ => true⟩ ⟨fun _ => true, fun _ => true⟩
    0 5 true { ProtocolAnalyzerInfo.default with type := 1, replaces := some 5 }
    { FileAnalyzerInfo.default with type := 1, replaces := some 5 }
    (by decide) rfl (by decide) rfl rfl (by decide) rfl rfl rfl
  exact ⟨h.1, (h.2.1 rfl).trans rfl, h.2.2.1, (h.2.2.2 rfl).trans rfl⟩

/-- C4 counterexample: the replaced analyzer 5 starts DISABLED (as it is
right after a phase-1 registration with `replaces`, which disables it);
after toggle(true) followed by toggle(false) the code has unconditionally
re-enabled it, so its enabled state differs from its state before the pair —
the unconditional round-trip stated by the claim is false. -/
theorem c4_round_trip_counterexample :
    (AnalyzerMgr.mk (fun _ => false)).enabled 5 = false ∧
    (toggleProtocolAnalyzer c4exPtbl
        (toggleProtocolAnalyzer c4exPtbl ⟨fun _ => false⟩ 0 true).2 0 false).2.enabled 5 = true := by
  refine ⟨rfl, rfl⟩

/-- Concrete packet table for C5: one set descriptor (type id 1) at index 0. -/
def c5exPktTbl : List PacketAnalyzerInfo :=
  [{ name_analyzer := "PKT", name_parser_decl := "", type := 1, parser := none }]

/-- C5: the packet toggleAnalyzer overload bounds-checks
`_packet_analyzers_by_type` but then reads `_protocol_analyzers_by_type[type]`
(plugin.cc:384). At a set packet slot (index 0, type 1): with an empty
protocol table the subscript is out of bounds — no defined outcome at all
(`none`), hence no guaranteed not-supported log; with a one-slot protocol
table whose slot is unset, the call returns false through the "not ours"
branch WITHOUT logging that toggling is unsupported, contradicting the claim
that a set packet slot always logs the not-supported message. -/
theorem c5_packet_toggle_reads_protocol_table :
    (c5exPktTbl[0]?).map (fun i => i.type) = some 1 ∧
    togglePacketAnalyzer c5exPktTbl [] 0 true = none ∧
    togglePacketAnalyzer c5exPktTbl [ProtocolAnalyzerInfo.default] 0 true = some (false, false) := by
  refine ⟨rfl, rfl, rfl⟩

/-- C2: loadModule is idempotent on canonical paths. If the canonical path is
already registered, the call returns the state unchanged (no insert, no open,
no registration side effects). Otherwise it inserts the canonical path and
opens the module exactly once. Two spellings with the same canonicalization:
after the first load succeeds, the second request is a no-op and the module
was opened exactly once overall. -/
theorem c2_loadModule_idempotent (canonical : String → Option String)
    (openOk : String → Bool) (st : LoaderState) (path1 path2 cp : String)
    (h1 : canonical path1 = some cp) :
    (cp ∈ st.libraries → loadModule canonical openOk st path1 = Except.ok st) ∧
    (cp ∉ st.libraries → openOk cp = true →
      loadModule canonical openOk st path1
        = Except.ok { libraries := cp :: st.libraries, opened := st.opened ++ [cp] }) ∧
    (canonical path2 = some cp → cp ∉ st.libraries → openOk cp = true →
      ∀ st1, loadModule canonical openOk st path1 = Except.ok st1 →
        loadModule canonical openOk st1 path2 = Except.ok st1 ∧
        st1.opened = st.opened ++ [cp]) := by
  refine ⟨?_, ?_, ?_⟩
  · intro hmem
    simp [loadModule, h1, hmem]
  · intro hmem hopen
    simp [loadModule, h1, hmem, hopen]
  · intro h2 hmem hopen st1 hload
    have hfirst : loadModule canonical openOk st path1
        = Except.ok { libraries := cp :: st.libraries, opened := st.opened ++ [cp] } := by
      simp [loadModule, h1, hmem, hopen]
    rw [hfirst] at hload
    injection hload with h3
    rw [← h3]
    constructor
    · simp [loadModule, h2]
    · rfl

/-- C2 witness: two spellings of one module that canonicalize identically,
loaded into an empty registry: the first load opens the module, the second is
a no-op on the resulting state. -/
theorem c2_loadModule_idempotent_witness :
    loadModule (fun _ => some "/abs/m.hlto") (fun _ => true) ⟨[], []⟩ "m.hlto"
      = Except.ok ⟨["/abs/m.hlto"], ["/abs/m.hlto"]⟩ ∧
    loadModule (fun _ => some "/abs/m.hlto") (fun _ => true) ⟨["/abs/m.hlto"], ["/abs/m.hlto"]⟩ "./m.hlto"
      = Except.ok ⟨["/abs/m.hlto"], ["/abs/m.hlto"]⟩ := by
  have h := c2_loadModule_idempotent (fun _ => some "/abs/m.hlto") (fun _ => true)
    ⟨[], []⟩ "m.hlto" "./m.hlto" "/abs/m.hlto" rfl
  refine ⟨(h.2.1 (by simp) rfl), ?_⟩
  exact (h.2.2 rfl (by simp) rfl ⟨["/abs/m.hlto"], ["/abs/m.hlto"]⟩ (h.2.1 (by simp) rfl)).1

theorem addComponent_not_mem_replacesEventsProtocol
    (lookup : String → Option Nat) (rep n : String) :
    HostEvent.addComponent n ∉ replacesEventsProtocol lookup rep := by
  unfold replacesEventsProtocol
  split
  · simp
  · cases lookup rep <;> simp

/-- C6: registering a protocol analyzer whose transport protocol has no
factory (neither TCP nor UDP) is a non-fatal error: no descriptor table
changes, no component is added to the host, an error is reported, and the
entry point returns normally (the model function is total, mirroring the
`reporter::error(...); return;` in the source). -/
theorem c6_unsupported_protocol_nonfatal (st : PluginState)
    (lookupA : String → Option Nat) (t : Nat) (name : String) (proto : Protocol)
    (ports : List Nat) (po pr rep : String)
    (h : factoryFor proto = none) :
    (registerProtocolAnalyzer st lookupA t name proto ports po pr rep).protocol_analyzers_by_type
      = st.protocol_analyzers_by_type ∧
    (registerProtocolAnalyzer st lookupA t name proto ports po pr rep).file_analyzers_by_type
      = st.file_analyzers_by_type ∧
    (registerProtocolAnalyzer st lookupA t name proto ports po pr rep).packet_analyzers_by_type
      = st.packet_analyzers_by_type ∧
    HostEvent.errorReport "unsupported protocol in analyzer"
      ∈ (registerProtocolAnalyzer st lookupA t name proto ports po pr rep).events ∧
    (∀ n, HostEvent.addComponent n ∈ (registerProtocolAnalyzer st lookupA t name proto ports po pr rep).events
      → HostEvent.addComponent n ∈ st.events) := by
  refine ⟨by simp [registerProtocolAnalyzer, h], by simp [registerProtocolAnalyzer, h],
    by simp [registerProtocolAnalyzer, h], by simp [registerProtocolAnalyzer, h], ?_⟩
  intro n hn
  simp only [registerProtocolAnalyzer, h, List.append_assoc, List.mem_append] at hn
  rcases hn with hn | hn | hn
  · exact hn
  · exact absurd hn (addComponent_not_mem_replacesEventsProtocol lookupA rep n)
  · simp at hn

/-- C6 witness: a registration over ICMP on the initial state reports the
error, adds no component, and leaves every table empty. -/
theorem c6_unsupported_protocol_nonfatal_witness :
    (registerProtocolAnalyzer PluginState.init (fun _ => none) 1 "A" Protocol.ICMP [] "" "" "").protocol_analyzers_by_type = [] ∧
    HostEvent.errorReport "unsupported protocol in analyzer"
      ∈ (registerProtocolAnalyzer PluginState.init (fun _ => none) 1 "A" Protocol.ICMP [] "" "" "").events ∧
    (∀ n, HostEvent.addComponent n ∈ (registerProtocolAnalyzer PluginState.init (fun _ => none) 1 "A" Protocol.ICMP [] "" "" "").events
      → HostEvent.addComponent n ∈ PluginState.init.events) := by
  have h := c6_unsupported_protocol_nonfatal PluginState.init (fun _ => none) 1 "A" Protocol.ICMP [] "" "" "" rfl
  exact ⟨h.1, h.2.2.2.1, h.2.2.2.2⟩

/-- C7: phase-1 handling of a non-empty `replaces` name, for both the
protocol and the file registration. If the host lookup resolves the name, the
existing analyzer is disabled as the very first host call — strictly before
the AddComponent call that creates the new component — and the resolved tag
is recorded in the stored descriptor's replacement field. If the lookup
fails, only a diagnostic is logged, the stored descriptor's replacement field
is `none`, and registration still completes (the component is added and the
descriptor stored; nothing fatal). -/
theorem c7_replaces_handling (st : PluginState) (lookupA lookupF : String → Option Nat)
    (t : Nat) (nameP nameF : String) (proto : Protocol) (ports : List Nat)
    (po pr : String) (mts : List String) (pd rep : String)
    (hrep : rep ≠ "") :
    (∀ tagOld, lookupA rep = some tagOld → (factoryFor proto).isSome →
      (registerProtocolAnalyzer st lookupA t nameP proto ports po pr rep).events
        = st.events ++ [HostEvent.disableAnalyzer tagOld, HostEvent.addComponent nameP] ∧
      ((registerProtocolAnalyzer st lookupA t nameP proto ports po pr rep).protocol_analyzers_by_type[t]?).map
        (fun i => i.replaces) = some (some tagOld)) ∧
    (lookupA rep = none → (factoryFor proto).isSome →
      (registerProtocolAnalyzer st lookupA t nameP proto ports po pr rep).events
        = st.events ++ [HostEvent.debugLog "replaces target does not exist", HostEvent.addComponent nameP] ∧
      ((registerProtocolAnalyzer st lookupA t nameP proto ports po pr rep).protocol_analyzers_by_type[t]?).map
        (fun i => i.replaces) = some none) ∧
    (∀ tagOld, lookupF rep = some tagOld →
      (registerFileAnalyzer st lookupF t nameF mts pd rep).events
        = st.events ++ [HostEvent.setFileEnabled tagOld false, HostEvent.addComponent nameF] ∧
      ((registerFileAnalyzer st lookupF t nameF mts pd rep).file_analyzers_by_type[t]?).map
        (fun i => i.replaces) = some (some tagOld)) ∧
    (lookupF rep = none →
      (registerFileAnalyzer st lookupF t nameF mts pd rep).events
        = st.events ++ [HostEvent.debugLog "replaces target does not exist", HostEvent.addComponent nameF] ∧
      ((registerFileAnalyzer st lookupF t nameF mts pd rep).file_analyzers_by_type[t]?).map
        (fun i => i.replaces) = some none) := by
  refine ⟨?_, ?_, ?_, ?_⟩
  · intro tagOld hlook hfac
    cases hpf : factoryFor proto with
    | none =>
      rw [hpf] at hfac
      exact absurd hfac (by simp)
    | some u =>
      simp only [registerProtocolAnalyzer, hpf]
      constructor
      · simp [replacesEventsProtocol, hrep, hlook]
      · rw [store_getElem?_self]
        simp [replacesTagFor, hrep, hlook]
  · intro hlook hfac
    cases hpf : factoryFor proto with
    | none =>
      rw [hpf] at hfac
      exact absurd hfac (by simp)
    | some u =>
      simp only [registerProtocolAnalyzer, hpf]
      constructor
      · simp [replacesEventsProtocol, hrep, hlook]
      · rw [store_getElem?_self]
        simp [replacesTagFor, hrep, hlook]
  · intro tagOld hlook
    simp only [registerFileAnalyzer]
    constructor
    · simp [replacesEventsFile, hrep, hlook]
    · rw [store_getElem?_self]
      simp [replacesTagFor, hrep, hlook]
  · intro hlook
    simp only [registerFileAnalyzer]
    constructor
    · simp [replacesEventsFile, hrep, hlook]
    · rw [store_getElem?_self]
      simp [replacesTagFor, hrep, hlook]

/-- C7 witness: a protocol registration whose `replaces="OLD"` resolves to
host tag 7 (disable precedes component creation, tag recorded), and a file
registration whose `replaces="OLD"` does not resolve (diagnostic only, no
replacement stored, registration completes). -/
theorem c7_replaces_handling_witness :
    (registerProtocolAnalyzer PluginState.init (fun _ => some 7) 1 "A" Protocol.TCP [] "" "" "OLD").events
      = [HostEvent.disableAnalyzer 7, HostEvent.addComponent "A"] ∧
    ((registerProtocolAnalyzer PluginState.init (fun _ => some 7) 1 "A" Protocol.TCP [] "" "" "OLD").protocol_analyzers_by_type[1]?).map
      (fun i => i.replaces) = some (some 7) ∧
    (registerFileAnalyzer PluginState.init (fun _ => none) 1 "B" [] "" "OLD").events
      = [HostEvent.debugLog "replaces target does not exist", HostEvent.addComponent "B"] ∧
    ((registerFileAnalyzer PluginState.init (fun _ => none) 1 "B" [] "" "OLD").file_analyzers_by_type[1]?).map
      (fun i => i.replaces) = some none := by
  have h := c7_replaces_handling PluginState.init (fun _ => some 7) (fun _ => none) 1 "A" "B"
    Protocol.TCP [] "" "" [] "" "OLD" (by decide)
  have hp := h.1 7 rfl (by decide)
  have hf := h.2.2.2 rfl
  exact ⟨hp.1, hp.2, hf.1, hf.2⟩

theorem findParser_ok_isSome (parsers : List Parser) (a decl : String)
    (v : Option Parser) (h : findParser parsers a decl = Except.ok v)
    (hd : decl ≠ "") : v.isSome := by
  unfold findParser at h
  rw [if_neg hd] at h
  cases hf : parsers.find? (fun p => p.name = decl) with
  | none =>
    rw [hf] at h
    simp at h
  | some p =>
    rw [hf] at h
    injection h with h2
    rw [← h2]
    rfl

theorem resolveProtocolInfo_resolved (parsers : List Parser)
    (p q : ProtocolAnalyzerInfo) (h : resolveProtocolInfo parsers p = Except.ok q) :
    q.type ≠ 0 →
      (q.name_parser_orig ≠ "" → q.parser_orig.isSome) ∧
      (q.name_parser_resp ≠ "" → q.parser_resp.isSome) := by
  unfold resolveProtocolInfo at h
  by_cases hp : p.type = 0
  · rw [if_pos hp] at h
    injection h with h2
    intro hq
    rw [← h2] at hq
    exact absurd hp hq
  · rw [if_neg hp] at h
    cases h1 : findParser parsers p.name_analyzer p.name_parser_orig with
    | error e =>
      rw [h1] at h
      injection h
    | ok po =>
      cases h2 : findParser parsers p.name_analyzer p.name_parser_resp with
      | error e =>
        rw [h1, h2] at h
        injection h
      | ok pr =>
        rw [h1, h2] at h
        injection h with h3
        intro hq
        rw [← h3]
        constructor
        · intro ho
          exact findParser_ok_isSome parsers p.name_analyzer p.name_parser_orig po h1 ho
        · intro hr
          exact findParser_ok_isSome parsers p.name_analyzer p.name_parser_resp pr h2 hr

theorem initPostScriptProtocol_resolved (parsers : List Parser)
    (tbl tbl2 : List ProtocolAnalyzerInfo)
    (h : initPostScriptProtocol parsers tbl = Except.ok tbl2) :
    ∀ q ∈ tbl2, q.type ≠ 0 →
      (q.name_parser_orig ≠ "" → q.parser_orig.isSome) ∧
      (q.name_parser_resp ≠ "" → q.parser_resp.isSome) := by
  induction tbl generalizing tbl2 with
  | nil =>
    unfold initPostScriptProtocol at h
    injection h with h2
    rw [← h2]
    intro q hq
    simp at hq
  | cons p rest ih =>
    unfold initPostScriptProtocol at h
    cases hr : resolveProtocolInfo parsers p with
    | error e =>
      rw [hr] at h
      injection h
    | ok q0 =>
      cases hrest : initPostScriptProtocol parsers rest with
      | error e =>
        rw [hr, hrest] at h
        injection h
      | ok qs =>
        rw [hr, hrest] at h
        injection h with h3
        rw [← h3]
        intro q hq
        rcases List.mem_cons.mp hq with hq0 | hqs
        · rw [hq0]
          exact resolveProtocolInfo_resolved parsers p q0 hr
        · exact ih qs hrest q hqs

/-- C8: phase-2 parser resolution. find_parser maps an empty declared name to
an absent parser; a non-empty declared name resolves by exact-name lookup to
the first parser of that name among the runtime's parsers, and is a fatal
internal error when no parser matches. For the InitPostScript loop over the
protocol table: whenever the loop completes (no fatal error), every slot with
a non-zero type whose declared originator/responder parser name is non-empty
holds a present resolved parser. -/
theorem c8_phase2_parser_resolution (parsers : List Parser) (a decl : String)
    (tbl tbl2 : List ProtocolAnalyzerInfo) :
    findParser parsers a "" = Except.ok none ∧
    (decl ≠ "" → ∀ p, parsers.find? (fun q => q.name = decl) = some p →
      findParser parsers a decl = Except.ok (some p) ∧ p.name = decl ∧ p ∈ parsers) ∧
    (decl ≠ "" → (∀ p ∈ parsers, p.name ≠ decl) →
      ∃ msg, findParser parsers a decl = Except.error msg) ∧
    (initPostScriptProtocol parsers tbl = Except.ok tbl2 →
      ∀ q ∈ tbl2, q.type ≠ 0 →
        (q.name_parser_orig ≠ "" → q.parser_orig.isSome) ∧
        (q.name_parser_resp ≠ "" → q.parser_resp.isSome)) := by
  refine ⟨rfl, ?_, ?_, ?_⟩
  · intro hd p hf
    refine ⟨?_, ?_, List.mem_of_find?_eq_some hf⟩
    · unfold findParser
      rw [if_neg hd, hf]
    · have := List.find?_some hf
      simpa using this
  · intro hd hnone
    refine ⟨"Unknown Spicy parser " ++ decl ++ " requested by analyzer " ++ a, ?_⟩
    unfold findParser
    rw [if_neg hd]
    have : parsers.find? (fun q => q.name = decl) = none := by
      rw [List.find?_eq_none]
      intro x hx
      simp [hnone x hx]
    rw [this]
  · exact initPostScriptProtocol_resolved parsers tbl tbl2

/-- Concrete unresolved protocol slot for the C8 witness: set (type 1), both
declared parser names "P". -/
def c8exSlot : ProtocolAnalyzerInfo :=
  { ProtocolAnalyzerInfo.default with
    type := 1
    name_parser_orig := "P"
    name_parser_resp := "P" }

/-- The C8 witness slot after phase-2 resolution against the single runtime
parser "P". -/
def c8exResolved : ProtocolAnalyzerInfo :=
  { c8exSlot with parser_orig := some (Parser.mk "P"), parser_resp := some (Parser.mk "P") }

/-- C8 witness: with the single runtime parser "P" — the empty name resolves
to an absent parser, "P" resolves to the parser named "P", "Q" is fatal, and
phase 2 over a one-slot table leaves a present resolved parser. -/
theorem c8_phase2_parser_resolution_witness :
    findParser [Parser.mk "P"] "A" "" = Except.ok none ∧
    findParser [Parser.mk "P"] "A" "P" = Except.ok (some (Parser.mk "P")) ∧
    (∃ msg, findParser [Parser.mk "P"] "A" "Q" = Except.error msg) ∧
    c8exResolved.parser_orig.isSome := by
  have h := c8_phase2_parser_resolution [Parser.mk "P"] "A" "P" [c8exSlot] [c8exResolved]
  have h2 := c8_phase2_parser_resolution [Parser.mk "P"] "A" "Q" [] []
  refine ⟨h.1, (h.2.1 (by decide) (Parser.mk "P") ?_).1, ?_, ?_⟩
  · rfl
  · refine h2.2.2.1 (by decide) ?_
    intro p hp
    simp at hp
    rw [hp]
    decide
  · refine (h.2.2.2 ?_ c8exResolved (by simp) (by decide)).1 (by decide)
    rfl

/-- C9: module auto-discovery is exclusive on the SPICY_MODULE_PATH override.
When the environment variable is set and non-empty, only the directories
listed in it (split, trimmed, existing) are searched; when it is unset or
empty, exactly the configured plugin module directory followed by the
host-provided plugin path are searched — the defaults are concatenated and
never merged with the override. -/
theorem c9_autodiscover_override_exclusive (isDir : String → Bool)
    (env : Option String) (cfg host : String) :
    (∀ s, env = some s → s ≠ "" →
      autoDiscoverModules isDir env cfg host = searchedDirs isDir s) ∧
    ((env = none ∨ env = some "") →
      autoDiscoverModules isDir env cfg host
        = searchedDirs isDir cfg ++ searchedDirs isDir host) := by
  constructor
  · intro s hs hne
    rw [hs]
    simp [autoDiscoverModules, hne]
  · intro h
    rcases h with h | h <;> rw [h] <;> simp [autoDiscoverModules]

/-- C9 witness: override "X" against defaults "Y" and "Z" (all directories
exist): only X is searched; with the override unset, exactly Y then Z. -/
theorem c9_autodiscover_override_exclusive_witness :
    autoDiscoverModules (fun _ => true) (some "X") "Y" "Z" = ["X"] ∧
    autoDiscoverModules (fun _ => true) none "Y" "Z" = ["Y", "Z"] := by
  have h1 := (c9_autodiscover_override_exclusive (fun _ => true) (some "X") "Y" "Z").1
    "X" rfl (by decide)
  have h2 := (c9_autodiscover_override_exclusive (fun _ => true) none "Y" "Z").2
    (Or.inl rfl)
  constructor
  · rw [h1]
    decide
  · rw [h2]
    decide

/-- C10: parserForProtocolAnalyzer and parserForFileAnalyzer index the
descriptor table directly with the tag's numeric id: whenever a slot exists
at that id, the result is exactly the resolved parser stored in it (selected
by is_orig for protocol analyzers), with no sentinel check — the first and
third conjuncts hold for any stored slot, including an unset one. For an id
at or beyond the table size there is no defined result (the model's `none`,
standing for the source's unchecked out-of-bounds vector subscript). -/
theorem c10_parser_lookup_unchecked (ptbl : List ProtocolAnalyzerInfo)
    (ftbl : List FileAnalyzerInfo) (tagType : Nat) (is_orig : Bool) :
    (∀ p, ptbl[tagType]? = some p →
      parserForProtocolAnalyzer ptbl tagType is_orig
        = some (if is_orig then p.parser_orig else p.parser_resp)) ∧
    (ptbl.length ≤ tagType → parserForProtocolAnalyzer ptbl tagType is_orig = none) ∧
    (∀ p, ftbl[tagType]? = some p → parserForFileAnalyzer ftbl tagType = some p.parser) ∧
    (ftbl.length ≤ tagType → parserForFileAnalyzer ftbl tagType = none) := by
  refine ⟨?_, ?_, ?_, ?_⟩
  · intro p hp
    simp [parserForProtocolAnalyzer, hp]
  · intro h
    simp [parserForProtocolAnalyzer, List.getElem?_eq_none h]
  · intro p hp
    simp [parserForFileAnalyzer, hp]
  · intro h
    simp [parserForFileAnalyzer, List.getElem?_eq_none h]

/-- Concrete table for the C10 witness: a single slot that is UNSET
(sentinel type 0) yet carries resolved parsers — demonstrating that the
accessors return the slot's parsers without any sentinel check. -/
def c10exPtbl : List ProtocolAnalyzerInfo :=
  [{ ProtocolAnalyzerInfo.default with
      parser_orig := some (Parser.mk "PO")
      parser_resp := some (Parser.mk "PR") }]

/-- Concrete file table for the C10 witness, one resolved slot. -/
def c10exFtbl : List FileAnalyzerInfo :=
  [{ FileAnalyzerInfo.default with parser := some (Parser.mk "PF") }]

/-- C10 witness: in-range ids return the stored parsers (orig side for
is_orig, even at an unset sentinel slot); the out-of-range id 1 has no
defined result. -/
theorem c10_parser_lookup_unchecked_witness :
    parserForProtocolAnalyzer c10exPtbl 0 true = some (some (Parser.mk "PO")) ∧
    parserForProtocolAnalyzer c10exPtbl 1 true = none ∧
    parserForFileAnalyzer c10exFtbl 0 = some (some (Parser.mk "PF")) ∧
    parserForFileAnalyzer c10exFtbl 1 = none := by
  have h0 := c10_parser_lookup_unchecked c10exPtbl c10exFtbl 0 true
  have h1 := c10_parser_lookup_unchecked c10exPtbl c10exFtbl 1 true
  refine ⟨(h0.1 _ rfl).trans rfl, h1.2.1 (by decide), (h0.2.2.1 _ rfl).trans rfl, h1.2.2.2 (by decide)⟩

end SpicyPluginModel
